import Mathlib

/-!
Shallow embedding of `cli/src/error.rs` from the tree-sitter CLI: the `Error`
type, its constructors, the `wrap` combinator, the `message` renderer, and the
conversions from foreign failure values.
-/

/-- `pub struct Error(Option<Vec<String>>)`: `none` is the ignored variant,
`some frames` the reportable variant whose frames grow by appending. -/
structure Error where
  frames : Option (List String)
deriving Repr, DecidableEq

/-- `Error::grammar`: frame `format!("Grammar error: {}", message)`. -/
def Error.grammar (message : String) : Error :=
  ⟨some ["Grammar error: " ++ message]⟩

/-- `Error::regex`: `message.insert_str(0, "Regex error: ")`, i.e. the prefix is
prepended to the caller's message. -/
def Error.regex (message : String) : Error :=
  ⟨some ["Regex error: " ++ message]⟩

/-- `Error::undefined_symbol`: frame ``format!("Undefined symbol `{}`", name)``. -/
def Error.undefined_symbol (name : String) : Error :=
  ⟨some ["Undefined symbol `" ++ name ++ "`"]⟩

/-- `Error::new`: a reportable error whose sole frame is `message`. -/
def Error.new (message : String) : Error :=
  ⟨some [message]⟩

/-- `Error::new_ignored`: `Self(None)`. -/
def Error.new_ignored : Error :=
  ⟨none⟩

/-- `Error::is_ignored`: `self.0.is_none()`. -/
def Error.is_ignored (e : Error) : Bool :=
  e.frames.isNone

/-- `Error::wrap`: the returned closure pushes `message_fn()` onto the frame
list of a reportable error.  On the ignored variant the source runs
`panic!("It's not allowed to wrap an ignored error")`; the panic is modelled by
the `none` result (the function never returns an `Error` there).  The
`Unit → String` argument models the lazy `FnOnce() -> M` supplier, and the
`E: Into<Self>` conversion is the identity on `Error` itself. -/
def Error.wrap (message_fn : Unit → String) (e : Error) : Option Error :=
  match e.frames with
  | some fs => some ⟨some (fs ++ [message_fn ()])⟩
  | none => none

/-- `Error::message`: `"Ignored error"` for the ignored variant; otherwise the
last frame is the headline (`e.last().unwrap()`, whose panic on an empty frame
list is modelled by the `none` result), and when more than one frame exists a
`"Details:"` header is followed by the earlier frames in reverse insertion
order, each rendered by `writeln!(&mut result, "  {}", msg)`. -/
def Error.message (e : Error) : Option String :=
  match e.frames with
  | none => some "Ignored error"
  | some fs =>
    match fs.getLast? with
    | none => none
    | some last =>
      if fs.length > 1 then
        some ((fs.dropLast.reverse).foldl (fun acc msg => acc ++ "  " ++ msg ++ "\n")
          (last ++ "\nDetails:\n"))
      else
        some last

/-- The discriminant of `tree_sitter::QueryError` (an external collaborator),
as matched by the conversion in `error.rs`. -/
inductive QueryErrorKind where
  | Capture
  | Field
  | NodeType
  | Syntax
  | Structure
  | Predicate
deriving Repr, DecidableEq

/-- The fields of `tree_sitter::QueryError` that the conversion reads. -/
structure QueryError where
  row : Nat
  message : String
  kind : QueryErrorKind
deriving Repr, DecidableEq

/-- `impl From<(&str, QueryError)> for Error`: prefix
`format!("Query error at {}:{}. ", path, error.row + 1)` followed by the
kind-specific clause. -/
def Error.fromQuery (path : String) (error : QueryError) : Error :=
  Error.new ("Query error at " ++ path ++ ":" ++ toString (error.row + 1) ++ ". " ++
    match error.kind with
    | QueryErrorKind.Capture => "Invalid capture name " ++ error.message
    | QueryErrorKind.Field => "Invalid field name " ++ error.message
    | QueryErrorKind.NodeType => "Invalid node type " ++ error.message
    | QueryErrorKind.Syntax => "Invalid syntax:\n" ++ error.message
    | QueryErrorKind.Structure => "Impossible pattern:\n" ++ error.message
    | QueryErrorKind.Predicate => "Invalid predicate: " ++ error.message)

/-- The discriminant of `std::io::ErrorKind`; only equality with `BrokenPipe`
is inspected by `error.rs`, so a few representative kinds suffice. -/
inductive IoErrorKind where
  | BrokenPipe
  | NotFound
  | PermissionDenied
  | Other
deriving Repr, DecidableEq

/-- An `std::io::Error` as seen by the conversion: its kind and the text its
`to_string()` renders. -/
structure IoError where
  kind : IoErrorKind
  text : String
deriving Repr, DecidableEq

/-- `impl From<io::Error> for Error`: broken pipe short-circuits to the ignored
variant, every other kind becomes `Error::new(error.to_string())`. -/
def Error.fromIoError (error : IoError) : Error :=
  if error.kind = IoErrorKind.BrokenPipe then Error.new_ignored
  else Error.new error.text

/-- `impl From<tree_sitter_highlight::Error>`: `Error::new(format!("{:?}", error))`;
the argument is the debug-formatted text of the foreign failure. -/
def Error.fromHighlight (debugText : String) : Error := Error.new debugText

/-- `impl From<tree_sitter_tags::Error>`: `Error::new(format!("{}", error))`;
the argument is the display-formatted text of the foreign failure. -/
def Error.fromTags (displayText : String) : Error := Error.new displayText

/-- `impl From<serde_json::Error>`: `Error::new(error.to_string())`. -/
def Error.fromJson (text : String) : Error := Error.new text

/-- `impl From<glob::PatternError>`: `Error::new(error.to_string())`. -/
def Error.fromGlobPattern (text : String) : Error := Error.new text

/-- `impl From<glob::GlobError>`: `Error::new(error.to_string())`. -/
def Error.fromGlobIteration (text : String) : Error := Error.new text

/-- `impl From<libloading::Error>`: `Error::new(error.to_string())`. -/
def Error.fromLibloading (text : String) : Error := Error.new text

/-- `impl From<regex_syntax::ast::Error>`: `Error::new(error.to_string())`. -/
def Error.fromRegexSyntax (text : String) : Error := Error.new text

/-- `impl From<test_highlight::Failure>`: `Error::new(error.message())`. -/
def Error.fromTestFailure (text : String) : Error := Error.new text

/-- `impl From<String>`: `Error::new(error)`, the text used verbatim. -/
def Error.fromText (text : String) : Error := Error.new text

/-- `impl From<walkdir::Error>`: `Error::new(error.to_string())`. -/
def Error.fromWalkdir (text : String) : Error := Error.new text

/-- A chain of `wrap`s over a root error built from `m1`: each element of
`rest` is attached, in order, by the closure `Error::wrap` returns. -/
def chainError (m1 : String) (rest : List String) : Option Error :=
  rest.foldl (fun oe m => oe.bind (Error.wrap (fun _ => m))) (some (Error.new m1))

/-- A reportable error with exactly one frame. -/
def singleFrameReportable (e : Error) : Prop :=
  (∃ s, e.frames = some [s]) ∧ e.is_ignored = false

/-- The errors reachable through the public operations of `error.rs`:
the named constructors, the conversions, and any number of `wrap`
applications that actually return. -/
inductive Reachable : Error → Prop where
  | grammar (m : String) : Reachable (Error.grammar m)
  | regex (m : String) : Reachable (Error.regex m)
  | undefined_symbol (m : String) : Reachable (Error.undefined_symbol m)
  | new (m : String) : Reachable (Error.new m)
  | new_ignored : Reachable Error.new_ignored
  | fromQuery (p : String) (e : QueryError) : Reachable (Error.fromQuery p e)
  | fromIoError (e : IoError) : Reachable (Error.fromIoError e)
  | fromHighlight (t : String) : Reachable (Error.fromHighlight t)
  | fromTags (t : String) : Reachable (Error.fromTags t)
  | fromJson (t : String) : Reachable (Error.fromJson t)
  | fromGlobPattern (t : String) : Reachable (Error.fromGlobPattern t)
  | fromGlobIteration (t : String) : Reachable (Error.fromGlobIteration t)
  | fromLibloading (t : String) : Reachable (Error.fromLibloading t)
  | fromRegexSyntax (t : String) : Reachable (Error.fromRegexSyntax t)
  | fromTestFailure (t : String) : Reachable (Error.fromTestFailure t)
  | fromText (t : String) : Reachable (Error.fromText t)
  | fromWalkdir (t : String) : Reachable (Error.fromWalkdir t)
  | wrap (f : Unit → String) (e e2 : Error) :
      Reachable e → Error.wrap f e = some e2 → Reachable e2

/-- `String.join` distributes over `cons`. -/
theorem str_join_cons (a : String) (l : List String) :
    String.join (a :: l) = a ++ String.join l := by
  apply String.ext
  simp [String.data_join, String.data_append]

/-- The detail-rendering loop of `Error::message` appends, after `init`, the
two-space-indented and newline-terminated frames in iteration order. -/
theorem foldl_render_eq_join (l : List String) (init : String) :
    l.foldl (fun acc msg => acc ++ "  " ++ msg ++ "\n") init
      = init ++ String.join (l.map (fun msg => "  " ++ msg ++ "\n")) := by
  induction l generalizing init with
  | nil =>
    show init = init ++ ""
    exact (String.append_empty init).symm
  | cons a l ih =>
    simp only [List.foldl_cons, List.map_cons, str_join_cons, ih]
    apply String.ext
    simp [String.data_append, List.append_assoc]

/-- `Error::message` on explicit frames, given the last frame. -/
theorem message_mk_some (fs : List String) (last : String) (h : fs.getLast? = some last) :
    Error.message ⟨some fs⟩ =
      some (if fs.length > 1 then
        (fs.dropLast.reverse).foldl (fun acc msg => acc ++ "  " ++ msg ++ "\n")
          (last ++ "\nDetails:\n")
      else last) := by
  rw [show Error.message ⟨some fs⟩ = (match fs.getLast? with
      | none => none
      | some l =>
        if fs.length > 1 then
          some ((fs.dropLast.reverse).foldl (fun acc msg => acc ++ "  " ++ msg ++ "\n")
            (l ++ "\nDetails:\n"))
        else some l) from rfl]
  simp only [h]
  split <;> rfl

/-- Folding the wrap step over a reportable error appends the messages. -/
theorem chainError_foldl (rest : List String) : ∀ fs : List String,
    rest.foldl (fun oe m => oe.bind (Error.wrap (fun _ => m))) (some ⟨some fs⟩)
      = some ⟨some (fs ++ rest)⟩ := by
  induction rest with
  | nil => intro fs; simp
  | cons m rest ih =>
    intro fs
    have h1 : (some (⟨some fs⟩ : Error)).bind (Error.wrap (fun _ => m))
        = some ⟨some (fs ++ [m])⟩ := rfl
    rw [List.foldl_cons, h1, ih (fs ++ [m])]
    simp [List.append_assoc]

/-- A chain of wraps over a root message never panics and accumulates the
frames in attachment order. -/
theorem chainError_eq (m1 : String) (rest : List String) :
    chainError m1 rest = some ⟨some (m1 :: rest)⟩ := by
  have h := chainError_foldl rest [m1]
  simp only [List.singleton_append] at h
  exact h

/-- Reachable reportable errors have a non-empty frame list. -/
theorem reachable_frames_ne_nil (e : Error) (h : Reachable e) :
    ∀ fs, e.frames = some fs → fs ≠ [] := by
  induction h
  case wrap f e e2 hr hw ih =>
    intro fs hfs
    cases he : e.frames with
    | none =>
      rw [show Error.wrap f e = match e.frames with
          | some fs0 => some ⟨some (fs0 ++ [f ()])⟩
          | none => none from rfl, he] at hw
      exact Option.noConfusion hw
    | some fs0 =>
      rw [show Error.wrap f e = match e.frames with
          | some fs1 => some ⟨some (fs1 ++ [f ()])⟩
          | none => none from rfl, he] at hw
      cases hw
      simp only [Error.frames] at hfs
      cases hfs
      simp
  case new_ignored =>
    intro fs hfs
    exact Option.noConfusion hfs
  case fromIoError e =>
    intro fs hfs
    unfold Error.fromIoError at hfs
    split at hfs
    · exact Option.noConfusion hfs
    · simp [Error.new] at hfs
      subst hfs
      simp
  all_goals
    intro fs hfs
    simp [Error.grammar, Error.regex, Error.undefined_symbol, Error.new, Error.fromQuery,
      Error.fromHighlight, Error.fromTags, Error.fromJson, Error.fromGlobPattern,
      Error.fromGlobIteration, Error.fromLibloading, Error.fromRegexSyntax,
      Error.fromTestFailure, Error.fromText, Error.fromWalkdir] at hfs
    subst hfs
    simp

/-- When all reportable frame lists are non-empty, `Error::message` is total. -/
theorem message_isSome_of_ne_nil (e : Error)
    (h : ∀ fs, e.frames = some fs → fs ≠ []) : ∃ s, Error.message e = some s := by
  obtain ⟨frames⟩ := e
  cases frames with
  | none => exact ⟨"Ignored error", rfl⟩
  | some fs =>
    cases fs with
    | nil => exact absurd rfl (h [] rfl)
    | cons a as =>
      cases hl : (a :: as).getLast? with
      | none => exact absurd hl (by simp)
      | some last =>
        rw [message_mk_some (a :: as) last hl]
        exact ⟨_, rfl⟩

/-- Claim C1: for a chain built from root message `m1` and then wrapped with
`m2, ..., mk`, the rendered message has `mk` as the headline; with a single
frame the result is `m1` exactly and no `Details:` section, and with more
frames the headline is followed by a `Details:` header and the frames
`m(k-1), ..., m1` in reverse insertion order, each indented by two spaces and
newline-terminated. -/
theorem chain_render_spec (m1 : String) (rest : List String) :
    (chainError m1 rest).bind Error.message =
      some (match rest.getLast? with
        | none => m1
        | some mk =>
            mk ++ "\nDetails:\n" ++
              String.join (((m1 :: rest).dropLast).reverse.map
                (fun msg => "  " ++ msg ++ "\n"))) := by
  rw [chainError_eq, Option.some_bind]
  cases rest with
  | nil => rfl
  | cons r rs =>
    have hlast : ∃ mk, (r :: rs).getLast? = some mk := by
      cases h : (r :: rs).getLast? with
      | none => exact absurd h (by simp)
      | some mk => exact ⟨mk, rfl⟩
    obtain ⟨mk, hmk⟩ := hlast
    have hcc : (m1 :: r :: rs).getLast? = some mk := by
      rw [List.getLast?_cons_cons, hmk]
    rw [message_mk_some (m1 :: r :: rs) mk hcc]
    simp only [hmk]
    rw [if_pos (by simp only [List.length_cons]; omega)]
    rw [foldl_render_eq_join]

/-- Claim C2: converting an I/O failure of broken-pipe kind yields the ignored
variant; any other kind yields a reportable error whose sole frame is the
failure's own message text. -/
theorem from_io_error_spec (e : IoError) :
    (e.kind = IoErrorKind.BrokenPipe → (Error.fromIoError e).is_ignored = true) ∧
    (e.kind ≠ IoErrorKind.BrokenPipe →
      (Error.fromIoError e).frames = some [e.text] ∧
      (Error.fromIoError e).is_ignored = false) := by
  constructor
  · intro h
    simp [Error.fromIoError, h, Error.new_ignored, Error.is_ignored]
  · intro h
    simp [Error.fromIoError, h, Error.new, Error.is_ignored]

/-- Witness for claim C2's theorem at a broken-pipe input and a not-found
input. -/
theorem from_io_error_spec_witness :
    (Error.fromIoError ⟨IoErrorKind.BrokenPipe, "pipe closed"⟩).is_ignored = true ∧
    (Error.fromIoError ⟨IoErrorKind.NotFound, "no such file"⟩).frames =
      some ["no such file"] :=
  ⟨(from_io_error_spec ⟨IoErrorKind.BrokenPipe, "pipe closed"⟩).1 rfl,
   ((from_io_error_spec ⟨IoErrorKind.NotFound, "no such file"⟩).2 (by decide)).1⟩

/-- Claim C3: applying the function `Error::wrap` returns to an error that is
already the ignored variant hits the `panic!` (modelled by `none`): it never
returns an `Error` value, for every context supplier. -/
theorem wrap_ignored_never_returns (message_fn : Unit → String) :
    Error.wrap message_fn Error.new_ignored = none := rfl

/-- Claim C4: a query-compilation failure at path `p` and row `r` converts to a
single frame beginning with `"Query error at " ++ p ++ ":" ++ toString (r+1)
++ ". "`; in particular a Syntax failure at row 4 of `grammar.js` with message
`"unexpected token"` yields the stated headline. -/
theorem from_query_headline_spec (p : String) (e : QueryError) :
    (∃ clause, (Error.fromQuery p e).frames =
        some [("Query error at " ++ p ++ ":" ++ toString (e.row + 1) ++ ". ") ++ clause]) ∧
    Error.fromQuery "grammar.js" ⟨4, "unexpected token", QueryErrorKind.Syntax⟩ =
      Error.new "Query error at grammar.js:5. Invalid syntax:\nunexpected token" := by
  constructor
  · exact ⟨_, rfl⟩
  · decide

/-- Claim C5: wrapping an error built from `m1` with a supplier returning `m2`
renders exactly `m2 ++ "\nDetails:\n  " ++ m1 ++ "\n"`, with the trailing
newline the multi-frame rendering has and the single-frame rendering lacks. -/
theorem wrap_single_render_spec (m1 m2 : String) :
    (Error.wrap (fun _ => m2) (Error.new m1)).bind Error.message =
      some (m2 ++ "\nDetails:\n  " ++ m1 ++ "\n") := by
  show some ((((m2 ++ "\nDetails:\n") ++ "  ") ++ m1) ++ "\n") = _
  rw [String.append_assoc m2 "\nDetails:\n" "  "]
  have hlit : ("\nDetails:\n" : String) ++ "  " = "\nDetails:\n  " := by decide
  rw [hlit]

/-- Claim C6: `Error::grammar "bad rule"` renders as `"Grammar error: bad
rule"`, `Error::undefined_symbol "foo"` renders with backticks around the
name, and for every text `t` the `Error::regex` constructor prepends (not
appends) the `"Regex error: "` prefix to the caller's message. -/
theorem named_constructors_spec :
    Error.message (Error.grammar "bad rule") = some "Grammar error: bad rule" ∧
    Error.message (Error.undefined_symbol "foo") = some "Undefined symbol `foo`" ∧
    ∀ t, (Error.regex t).frames = some ["Regex error: " ++ t] :=
  ⟨by decide, by decide, fun _ => rfl⟩

/-- Claim C7: the ignored constructor is the only ignored error among the
public constructors, and every conversion of the closed table (including
non-broken-pipe I/O failures) produces a reportable error with exactly one
frame. -/
theorem conversions_single_frame_spec :
    (∀ e : IoError, e.kind ≠ IoErrorKind.BrokenPipe →
      singleFrameReportable (Error.fromIoError e)) ∧
    Error.is_ignored Error.new_ignored = true ∧
    (∀ m, Error.is_ignored (Error.new m) = false) ∧
    (∀ p e2, singleFrameReportable (Error.fromQuery p e2)) ∧
    (∀ t, singleFrameReportable (Error.fromHighlight t)) ∧
    (∀ t, singleFrameReportable (Error.fromTags t)) ∧
    (∀ t, singleFrameReportable (Error.fromJson t)) ∧
    (∀ t, singleFrameReportable (Error.fromGlobPattern t)) ∧
    (∀ t, singleFrameReportable (Error.fromGlobIteration t)) ∧
    (∀ t, singleFrameReportable (Error.fromLibloading t)) ∧
    (∀ t, singleFrameReportable (Error.fromRegexSyntax t)) ∧
    (∀ t, singleFrameReportable (Error.fromTestFailure t)) ∧
    (∀ t, singleFrameReportable (Error.fromText t)) ∧
    (∀ t, singleFrameReportable (Error.fromWalkdir t)) := by
  refine ⟨?_, rfl, fun _ => rfl, fun _ _ => ⟨⟨_, rfl⟩, rfl⟩, fun _ => ⟨⟨_, rfl⟩, rfl⟩,
    fun _ => ⟨⟨_, rfl⟩, rfl⟩, fun _ => ⟨⟨_, rfl⟩, rfl⟩, fun _ => ⟨⟨_, rfl⟩, rfl⟩,
    fun _ => ⟨⟨_, rfl⟩, rfl⟩, fun _ => ⟨⟨_, rfl⟩, rfl⟩, fun _ => ⟨⟨_, rfl⟩, rfl⟩,
    fun _ => ⟨⟨_, rfl⟩, rfl⟩, fun _ => ⟨⟨_, rfl⟩, rfl⟩, fun _ => ⟨⟨_, rfl⟩, rfl⟩⟩
  intro e h
  unfold Error.fromIoError
  rw [if_neg h]
  exact ⟨⟨e.text, rfl⟩, rfl⟩

/-- Witness for claim C7's theorem at a not-found I/O failure. -/
theorem conversions_single_frame_spec_witness :
    (IoError.mk IoErrorKind.NotFound "no such file").kind ≠ IoErrorKind.BrokenPipe ∧
    singleFrameReportable (Error.fromIoError ⟨IoErrorKind.NotFound, "no such file"⟩) :=
  ⟨by decide,
   conversions_single_frame_spec.1 ⟨IoErrorKind.NotFound, "no such file"⟩ (by decide)⟩

/-- Claim C8: every error reachable through the public operations that is the
reportable variant has a non-empty frame list, and `Error::message` never hits
its panic there (it always returns a string). -/
theorem reachable_message_total (e : Error) (h : Reachable e) :
    (∀ fs, e.frames = some fs → fs ≠ []) ∧ ∃ s, Error.message e = some s :=
  ⟨reachable_frames_ne_nil e h,
   message_isSome_of_ne_nil e (reachable_frames_ne_nil e h)⟩

/-- Witness for claim C8's theorem at `Error.new "x"`. -/
theorem reachable_message_total_witness :
    (∀ fs, (Error.new "x").frames = some fs → fs ≠ []) ∧
    ∃ s, Error.message (Error.new "x") = some s :=
  reachable_message_total (Error.new "x") (Reachable.new "x")

/-- Claim C9: for the Capture, Field, NodeType and Predicate kinds the
converted headline also carries the failure's own message after the
kind-specific clause. -/
theorem from_query_kind_clauses (p : String) (e : QueryError) :
    (e.kind = QueryErrorKind.Capture →
      (Error.fromQuery p e).frames = some [("Query error at " ++ p ++ ":" ++
        toString (e.row + 1) ++ ". ") ++ ("Invalid capture name " ++ e.message)]) ∧
    (e.kind = QueryErrorKind.Field →
      (Error.fromQuery p e).frames = some [("Query error at " ++ p ++ ":" ++
        toString (e.row + 1) ++ ". ") ++ ("Invalid field name " ++ e.message)]) ∧
    (e.kind = QueryErrorKind.NodeType →
      (Error.fromQuery p e).frames = some [("Query error at " ++ p ++ ":" ++
        toString (e.row + 1) ++ ". ") ++ ("Invalid node type " ++ e.message)]) ∧
    (e.kind = QueryErrorKind.Predicate →
      (Error.fromQuery p e).frames = some [("Query error at " ++ p ++ ":" ++
        toString (e.row + 1) ++ ". ") ++ ("Invalid predicate: " ++ e.message)]) := by
  refine ⟨fun h => ?_, fun h => ?_, fun h => ?_, fun h => ?_⟩
  all_goals simp [Error.fromQuery, Error.new, h]

/-- Witness for claim C9's theorem at a Capture-kind failure. -/
theorem from_query_kind_clauses_witness :
    (Error.fromQuery "q.scm" ⟨0, "@bad", QueryErrorKind.Capture⟩).frames =
      some [("Query error at " ++ "q.scm" ++ ":" ++ toString (0 + 1) ++ ". ") ++
        ("Invalid capture name " ++ "@bad")] :=
  (from_query_kind_clauses "q.scm" ⟨0, "@bad", QueryErrorKind.Capture⟩).1 rfl

/-- Claim C10: `Error::message` on any error of the ignored variant returns
exactly the fixed string `"Ignored error"`. -/
theorem ignored_message_spec (e : Error) (h : e.is_ignored = true) :
    Error.message e = some "Ignored error" := by
  obtain ⟨frames⟩ := e
  cases frames with
  | none => rfl
  | some fs => simp [Error.is_ignored] at h

/-- Witness for claim C10's theorem at `Error.new_ignored`. -/
theorem ignored_message_spec_witness :
    Error.message Error.new_ignored = some "Ignored error" :=
  ignored_message_spec Error.new_ignored rfl
